import Mathlib

/-!
Verification of the Nexus content pipeline (agent_ripple / agent_quill /
agent_pulse / agent_envoy orchestrated by nexus_core).

The Python code is embedded shallowly:
  * Python dict values flowing through `GraphState` are modelled by the
    inductive `PyVal` (with Python truthiness `PyVal.truthy` and the
    `dict.get` lookup `pyGet`);
  * every call to an external collaborator (Gemini, Serper, FFmpeg,
    Twitter/YouTube) is a parameter of the embedded stage function: an
    outcome value describing what the collaborator did (threw, returned
    unparseable output, returned data).  A stage that is total on the whole
    outcome type is one that never lets a collaborator exception escape to
    the router;
  * floating point durations are modelled by `ℚ` (the arithmetic in
    `auto_clip_shorts` is exact on the inputs the claims quantify over);
  * the SQLite tables are modelled by lists of row structures, `ORDER BY
    created_at DESC LIMIT ?` by an insertion sort on the timestamp followed
    by `take`.
-/

/-- A Python value as it appears in the `GraphState` dicts of the pipeline. -/
inductive PyVal where
  | none : PyVal
  | bool : Bool → PyVal
  | int : Int → PyVal
  | rat : ℚ → PyVal
  | str : String → PyVal
  | list : List PyVal → PyVal
  | dict : List (String × PyVal) → PyVal

/-- A Python dict with string keys, e.g. the partial states returned by stages. -/
abbrev PyDict := List (String × PyVal)

/-- Python truthiness (`if x:`). -/
def PyVal.truthy : PyVal → Bool
  | .none => false
  | .bool b => b
  | .int n => decide (n ≠ 0)
  | .rat q => decide (q ≠ 0)
  | .str s => decide (s ≠ "")
  | .list xs => !xs.isEmpty
  | .dict xs => !xs.isEmpty

/-- `d.get(k)` on a dict (default `None`), first binding wins. -/
def dget (d : PyDict) (k : String) : PyVal :=
  match d.find? (fun p => p.1 == k) with
  | some p => p.2
  | Option.none => .none

/-- `v.get(k)` where `v` is expected to be a dict; anything else yields `None`
(the router only ever applies it to dict-shaped state fields). -/
def pyGet (v : PyVal) (k : String) : PyVal :=
  match v with
  | .dict xs => dget xs k
  | _ => .none

/-- `d[k] = v` on a dict: replace in place if the key exists, else append. -/
def dset (d : PyDict) (k : String) (v : PyVal) : PyDict :=
  if (d.find? (fun p => p.1 == k)).isSome then
    d.map (fun p => if p.1 == k then (k, v) else p)
  else
    d ++ [(k, v)]

/-- `len` of a Python value (only ever applied to lists/dicts/strings here). -/
def pyLen : PyVal → Nat
  | .list xs => xs.length
  | .dict xs => xs.length
  | .str s => s.length
  | _ => 0

/-! ## Routers (nexus_core.py, conditional edges) -/

/-- `check_for_trends` (nexus_core.py): routes after ripple on
`state.get("scouted_trends", [])`. -/
def check_for_trends (scouted_trends : PyVal) : String :=
  if !scouted_trends.truthy || pyLen scouted_trends == 0 then "error_handler"
  else "quill"

/-- `check_for_script` (nexus_core.py): routes after quill on
`state.get("generated_script", {})`. -/
def check_for_script (generated_script : PyVal) : String :=
  if !generated_script.truthy || !(pyGet generated_script "full_script").truthy then
    "error_handler"
  else "awaiting_video"

/-- The console line printed by `check_for_script` on each branch. -/
def check_for_script_log (generated_script : PyVal) : String :=
  if !generated_script.truthy || !(pyGet generated_script "full_script").truthy then
    "⚠️ No script generated - routing to error handler"
  else "✅ Script generated - workflow paused for user to shoot video"

/-! ## ripple (agent_ripple.py) -/

/-- Outcome of the Serper HTTP collaborator inside
`fetch_viral_trends_serper`: no API key configured, a non-200 response, a
raised exception, or a 200 response carrying the organic results. -/
inductive SerperOutcome where
  | noKey : SerperOutcome
  | httpError : Nat → SerperOutcome
  | exc : SerperOutcome
  | ok : List (String × String × String) → SerperOutcome

/-- `fetch_viral_trends_serper` (agent_ripple.py): every failure path returns
`[]`; a 200 response is mapped to trend dicts with `title`/`url`/`summary`
taken from the first `num_results` organic entries. -/
def fetch_viral_trends_serper (o : SerperOutcome) (num_results : Nat) : List PyVal :=
  match o with
  | .noKey => []
  | .httpError _ => []
  | .exc => []
  | .ok organic =>
      (organic.take num_results).map fun r =>
        .dict [("title", .str r.1), ("url", .str r.2.1), ("summary", .str r.2.2)]

/-- Outcome of the Gemini fallback in `run_ripple`, as seen after the
(retried) call and JSON parsing: the call threw even after the retries, the
text failed `json.loads`, or it parsed to some JSON value. -/
inductive LLMJson where
  | throws : LLMJson
  | badJson : LLMJson
  | parsed : PyVal → LLMJson

/-- `run_ripple` (agent_ripple.py): Serper first (when enabled), Gemini
simulation as fallback; both failure modes are caught inside the stage and
the empty/failed case returns the explicit
`{"scouted_trends": [], "error": "ripple: No trends found"}` record. -/
def run_ripple (use_serper : Bool) (serper : SerperOutcome) (gemini : LLMJson)
    (num_trends : Nat) : PyDict :=
  let trends0 : List PyVal :=
    if use_serper then fetch_viral_trends_serper serper num_trends else []
  let trends : PyVal :=
    if trends0.isEmpty then
      match gemini with
      | .throws => .list []
      | .badJson => .list []
      | .parsed v => v
    else .list trends0
  if trends.truthy then [("scouted_trends", trends)]
  else [("scouted_trends", .list []), ("error", .str "ripple: No trends found")]

/-! ## quill (agent_quill.py) -/

/-- Outcome of quill\x27s Gemini collaborator as seen after the retried call
and JSON parsing: the call threw even after the retries (carrying `str(e)`),
the text failed `json.loads` (carrying `str(e)`), or it parsed to some JSON
value (validated by the stage afterwards). -/
inductive QuillLLM where
  | throws : String → QuillLLM
  | badJson : String → QuillLLM
  | parsed : PyVal → QuillLLM

/-- The hardcoded fallback script of `run_quill`\x27s `json.JSONDecodeError`
branch (agent_quill.py). -/
def quill_fallback_json (topic niche user_vibe : String) : PyDict :=
  [("intro", .str ("Let\x27s talk about " ++ topic ++ "...")),
   ("body", .str ("Everyone in " ++ niche ++ " is talking about this, but here\x27s what they\x27re missing. [Hold up phone to camera] The real story is way more interesting.")),
   ("outro", .str "Drop a comment if you want more on this. Follow for daily insights."),
   ("full_script", .str ("Let\x27s talk about " ++ topic ++ "... Everyone in " ++ niche ++ " is talking about this, but here\x27s what they\x27re missing. [Hold up phone to camera] The real story is way more interesting. Drop a comment if you want more on this. Follow for daily insights.")),
   ("shot_count", .int 1),
   ("difficulty", .str "easy"),
   ("props_needed", .list [.str "smartphone"]),
   ("estimated_duration", .str "15 seconds"),
   ("created_at", .str "unknown"),
   ("topic", .str topic),
   ("vibe", .str user_vibe)]

/-- The hardcoded fallback script of `run_quill`\x27s generic `Exception`
branch (agent_quill.py). -/
def quill_fallback_general (topic user_vibe : String) : PyDict :=
  [("intro", .str "Here\x27s something you need to know..."),
   ("body", .str ("About " ++ topic ++ ". [Look directly at camera] This is important.")),
   ("outro", .str "Follow for more."),
   ("full_script", .str ("Here\x27s something you need to know... About " ++ topic ++ ". [Look directly at camera] This is important. Follow for more.")),
   ("shot_count", .int 1),
   ("difficulty", .str "easy"),
   ("props_needed", .list []),
   ("estimated_duration", .str "15 seconds"),
   ("created_at", .str "unknown"),
   ("topic", .str topic),
   ("vibe", .str user_vibe)]

/-- The required-field validation of `run_quill` on the parsed JSON object. -/
def quill_has_required_fields (xs : PyDict) : Bool :=
  ["intro", "body", "outro", "full_script"].all fun k =>
    (xs.find? (fun p => p.1 == k)).isSome

/-- `run_quill` (agent_quill.py).  `ts_env` is the TIMESTAMP environment lookup.
A parsed response that is not a JSON object, or an object missing one of the
required fields, raises inside the `try` (`ValueError`/`TypeError`) and is
caught by the generic `except Exception` branch; the dump of the offending
keys in the `ValueError` text is elided. -/
def run_quill (topic niche user_vibe : String) (ts_env : Option String)
    (llm : QuillLLM) : PyDict :=
  match llm with
  | .badJson e =>
      [("generated_script", .dict (quill_fallback_json topic niche user_vibe)),
       ("error", .str ("quill JSON parsing failed: " ++ e))]
  | .throws e =>
      [("generated_script", .dict (quill_fallback_general topic user_vibe)),
       ("error", .str ("quill failed: " ++ e))]
  | .parsed (.dict xs) =>
      if quill_has_required_fields xs then
        [("generated_script",
          .dict (dset (dset (dset xs "created_at" (.str (ts_env.getD "unknown")))
            "topic" (.str topic)) "vibe" (.str user_vibe)))]
      else
        [("generated_script", .dict (quill_fallback_general topic user_vibe)),
         ("error", .str "quill failed: Missing required fields in script.")]
  | .parsed _ =>
      [("generated_script", .dict (quill_fallback_general topic user_vibe)),
       ("error", .str "quill failed: response was not a JSON object")]

/-- The collaborator outcomes on which quill\x27s LLM call or validation
failed (everything except a parsed JSON object with the required fields). -/
def QuillLLM.isFailurePath : QuillLLM → Prop
  | .throws _ => True
  | .badJson _ => True
  | .parsed (.dict xs) => quill_has_required_fields xs = false
  | .parsed _ => True

/-! ## pulse (agent_pulse.py) -/

/-- Python `int(x)` on a float: truncation toward zero. -/
def pyTrunc (q : ℚ) : Int :=
  if 0 ≤ q then ⌊q⌋ else ⌈q⌉

/-- The metadata dict built for one clip by `auto_clip_shorts` /
`run_pulse`.  A real clip has no `is_mock` key, which under Python
truthiness is indistinguishable from `is_mock = False`, so the absent key is
modelled as `is_mock := false`.  The per-platform bookkeeping keys
(`posted_twitter`, `youtube_upload`) added by the posting loop are elided:
no claim mentions them. -/
structure Clip where
  clip_id : Nat
  filename : String
  path : String
  start_time : ℚ
  duration : ℚ
  size_bytes : Nat
  posted : Bool
  is_mock : Bool
deriving DecidableEq

/-- The clip metadata appended by `auto_clip_shorts` when the FFmpeg
extraction of segment `i` (0-based) succeeds. -/
def pulseClip (output_dir : String) (size_f : Nat → Nat) (start dur : ℚ)
    (i : Nat) : Clip :=
  { clip_id := i + 1,
    filename := "short_" ++ toString (i + 1) ++ "_" ++ toString (pyTrunc dur) ++ "s.mp4",
    path := output_dir ++ "/" ++
      ("short_" ++ toString (i + 1) ++ "_" ++ toString (pyTrunc dur) ++ "s.mp4"),
    start_time := start,
    duration := dur,
    size_bytes := size_f i,
    posted := false,
    is_mock := false }

/-- The clipping loop of `auto_clip_shorts` over the remaining indices.
`clip_duration` is a loop-carried Python local: the shrink
(`clip_duration = total_duration - start_time`) persists into later
iterations, so it is threaded through the recursion.  `clip_ok i` is the
outcome of the `clip_video_segment` collaborator for segment `i`, `size_f i`
the resulting `os.path.getsize`. -/
def autoClipGo (output_dir : String) (total min_duration num_clips_q : ℚ)
    (clip_ok : Nat → Bool) (size_f : Nat → Nat) :
    List Nat → ℚ → List Clip
  | [], _ => []
  | i :: rest, clip_duration =>
      let start_time : ℚ := (i : ℚ) * (total / num_clips_q)
      let clip_duration :=
        if start_time + clip_duration > total then total - start_time
        else clip_duration
      if clip_duration < min_duration then
        autoClipGo output_dir total min_duration num_clips_q clip_ok size_f rest clip_duration
      else if clip_ok i then
        pulseClip output_dir size_f start_time clip_duration i ::
          autoClipGo output_dir total min_duration num_clips_q clip_ok size_f rest clip_duration
      else
        autoClipGo output_dir total min_duration num_clips_q clip_ok size_f rest clip_duration

/-- `auto_clip_shorts` (agent_pulse.py).  `duration?` is the result of the
`get_video_duration` probe (`None` on failure; `0.0` is falsy, hence the
emptiness guard).  The even-split computation, the `num_clips` reduction for
short videos, and the per-segment loop follow the source line by line. -/
def auto_clip_shorts (output_dir : String) (duration? : Option ℚ)
    (min_duration max_duration : ℚ) (num_clips : Int)
    (clip_ok : Nat → Bool) (size_f : Nat → Nat) : List Clip :=
  match duration? with
  | Option.none => []
  | some total_duration =>
      if total_duration = 0 then []
      else
        let clip_duration := min max_duration (total_duration / (num_clips : ℚ))
        let nd : Int × ℚ :=
          if clip_duration < min_duration then
            (pyTrunc (total_duration / min_duration), min_duration)
          else (num_clips, clip_duration)
        autoClipGo output_dir total_duration min_duration ((nd.1 : ℚ))
          clip_ok size_f (List.range nd.1.toNat) nd.2

/-- The fixed mock clip metadata of `run_pulse`\x27s fallback branch
(agent_pulse.py). -/
def mock_clipped_shorts : List Clip :=
  [{ clip_id := 1, filename := "short_1_15s.mp4",
     path := "[MOCK] User needs to shoot video", start_time := 0,
     duration := 15, size_bytes := 0, posted := false, is_mock := true },
   { clip_id := 2, filename := "short_2_30s.mp4",
     path := "[MOCK] User needs to shoot video", start_time := 15,
     duration := 30, size_bytes := 0, posted := false, is_mock := true },
   { clip_id := 3, filename := "short_3_20s.mp4",
     path := "[MOCK] User needs to shoot video", start_time := 45,
     duration := 20, size_bytes := 0, posted := false, is_mock := true }]

/-- `run_pulse` (agent_pulse.py), restricted to its `clipped_shorts` output
(the `engage_plan` summary dict is derived data no claim mentions).
`path_exists` is `os.path.exists(video_path)`, `ffmpeg_ok` is
`check_ffmpeg_installed()`, `duration?` the probe result, `clip_ok`/`size_f`
the per-segment FFmpeg collaborator, and `tw_ok`/`yt_ok` the per-position
outcomes of the Twitter post and YouTube upload attempts.  Whenever no real
clip was produced the stage falls back to `mock_clipped_shorts`. -/
def run_pulse (path_exists ffmpeg_ok : Bool) (duration? : Option ℚ)
    (clip_ok : Nat → Bool) (size_f : Nat → Nat)
    (tw_ok yt_ok : Nat → Bool) : List Clip :=
  let clipped_shorts : List Clip :=
    if path_exists then
      if ffmpeg_ok then
        let cs := auto_clip_shorts "shorts" duration? 15 60 3 clip_ok size_f
        if cs.isEmpty then cs
        else cs.enum.map fun p =>
          { p.2 with posted := tw_ok p.1 || yt_ok p.1 }
      else []
    else []
  if clipped_shorts.isEmpty then mock_clipped_shorts else clipped_shorts

/-! ## envoy (agent_envoy.py) -/

/-- Python substring membership `needle in hay` for a non-empty needle. -/
def strContains (hay needle : String) : Bool :=
  2 ≤ (hay.splitOn needle).length

/-- String lookup in a string-valued dict, with default. -/
def sgetD (d : List (String × String)) (k dflt : String) : String :=
  match d.find? (fun p => p.1 == k) with
  | some p => p.2
  | Option.none => dflt

/-- The `script_sample` extraction at the top of `run_envoy`: the first 150
characters of a non-empty `full_script`, followed by `"..."`.  (A truthy
non-string `full_script` would make the Python slice raise before the
`try` block; the claims only quantify over string-or-absent values.) -/
def envoy_script_sample (generated_script : PyVal) : String :=
  if generated_script.truthy then
    match pyGet generated_script "full_script" with
    | .str s => if s = "" then "" else s.take 150 ++ "..."
    | _ => ""
  else ""

/-- Outcome of envoy\x27s single (unretried) Gemini call, as seen after JSON
parsing: the call threw, the output was structurally unusable (unparseable
text, a non-list JSON value, or elements on which the field access raised —
all of which land in the same `except` branch), or a parsed list of deal
objects with string fields as requested by the prompt. -/
inductive EnvoyLLM where
  | throws : EnvoyLLM
  | badOutput : EnvoyLLM
  | parsedList : List (List (String × String)) → EnvoyLLM

/-- The per-deal validation of `run_envoy`: keep only objects carrying the
four required fields, re-assembling them with a defaulted
`partnership_type` and the computed `script_included` flag. -/
def envoy_validate (script_sample : String) (d : List (String × String)) :
    Option PyDict :=
  if ["company_name", "website", "reason_for_sponsorship", "pitch_template"].all
      (fun k => (d.find? (fun p => p.1 == k)).isSome) then
    some [("company_name", .str (sgetD d "company_name" "")),
          ("website", .str (sgetD d "website" "")),
          ("reason_for_sponsorship", .str (sgetD d "reason_for_sponsorship" "")),
          ("pitch_template", .str (sgetD d "pitch_template" "")),
          ("partnership_type", .str (sgetD d "partnership_type" "sponsored content")),
          ("script_included",
           .bool (if script_sample = "" then false
                  else strContains (sgetD d "pitch_template" "") script_sample))]
  else Option.none

/-- The hardcoded fallback sponsor list of `run_envoy` (agent_envoy.py). -/
def envoy_fallback (topic niche user_vibe script_sample : String)
    (shorts_count : Nat) : List PyDict :=
  [[("company_name", .str "Skillshare"),
    ("website", .str "skillshare.com"),
    ("reason_for_sponsorship", .str ("Offers educational courses relevant to creators in the " ++ niche ++ " space, perfect for audience upskilling. Actively sponsors content creators across YouTube and social media.")),
    ("pitch_template", .str ("Hey Skillshare team,\\n\\nI create " ++ user_vibe ++ " content about " ++ topic ++ ". Here\x27s a sample from my latest script: \x27" ++ script_sample ++ "\x27 - this authentic approach is what my audience loves.\\n\\nI\x27ve created " ++ toString shorts_count ++ " short-form videos that are resonating strongly with viewers who love learning new skills. Your platform is a perfect fit for my community.\\n\\nMy content reaches engaged viewers who are always looking to level up. I\x27d love to partner with Skillshare to offer my community a special discount while creating a dedicated integration in my " ++ topic ++ " series.\\n\\nI\x27ve seen great results from your partnerships with Ali Abdaal and Thomas Frank. Let\x27s create something equally impactful for my audience.\\n\\nInterested in a quick call this week?\\n\\nBest,\\n[Your Name]")),
    ("partnership_type", .str "sponsored video + affiliate"),
    ("script_included", .bool (script_sample ≠ ""))],
   [("company_name", .str "Squarespace"),
    ("website", .str "squarespace.com"),
    ("reason_for_sponsorship", .str ("Website builder commonly sponsored by creators, helps audience build their own " ++ topic ++ " presence online. Known for influencer partnerships and creator-friendly programs.")),
    ("pitch_template", .str ("Hi Squarespace partnerships team,\\n\\nI create " ++ user_vibe ++ " content about " ++ topic ++ ". Check out this line from my recent script: \x27" ++ script_sample ++ "\x27 - this is the authentic voice my " ++ toString shorts_count ++ " short videos deliver.\\n\\nMy audience is passionate about building their online presence. Many are aspiring creators and entrepreneurs who need professional websites to showcase their " ++ topic ++ " projects.\\n\\nMy channel averages strong engagement rates and my community trusts my recommendations. I\x27d love to showcase how Squarespace can help them launch with a custom discount code.\\n\\nYour partnerships with Marques Brownlee and Sara Dietschy have been excellent—I think we could create similar authentic value for my audience.\\n\\nCan we schedule a brief call?\\n\\nCheers,\\n[Your Name]")),
    ("partnership_type", .str "sponsored integration"),
    ("script_included", .bool (script_sample ≠ ""))],
   [("company_name", .str "NordVPN"),
    ("website", .str "nordvpn.com"),
    ("reason_for_sponsorship", .str ("Privacy and security tool that appeals to tech-savvy audiences interested in " ++ topic ++ ". One of the most active sponsors in the creator economy.")),
    ("pitch_template", .str ("Hello NordVPN team,\\n\\nI cover " ++ topic ++ " with a " ++ user_vibe ++ " style. Here\x27s my latest script sample: \x27" ++ script_sample ++ "\x27 - this honest, direct approach drives my " ++ toString shorts_count ++ " short-form videos.\\n\\nMy audience is tech-savvy and privacy-conscious—exactly your target demographic. They trust my recommendations because I keep it real.\\n\\nI\x27d love to integrate NordVPN into my content with a dedicated segment explaining why online privacy matters for " ++ topic ++ " enthusiasts, plus a custom promo code. My recent videos hit strong view counts with high click-through rates on links.\\n\\nI\x27ve admired your creator partnerships and think we\x27d be a natural fit for an ongoing collaboration.\\n\\nWould you be open to a 15-minute intro call?\\n\\nThanks,\\n[Your Name]")),
    ("partnership_type", .str "sponsored segment + promo code"),
    ("script_included", .bool (script_sample ≠ ""))]]

/-- `run_envoy` (agent_envoy.py), restricted to its `deal_plan` output.
The Gemini call has no retry wrapper (single attempt); every failure —
thrown call, unusable output, or a response in which no element passes the
required-field validation (the `raise ValueError("No valid deals found in
response")`) — is caught by the single `except` and replaced by the
hardcoded fallback list. -/
def run_envoy (topic niche user_vibe : String) (generated_script : PyVal)
    (clipped_shorts : List Clip) (llm : EnvoyLLM) : List PyDict :=
  let script_sample := envoy_script_sample generated_script
  let shorts_count := (clipped_shorts.filter (fun s => !s.is_mock)).length
  match llm with
  | .throws => envoy_fallback topic niche user_vibe script_sample shorts_count
  | .badOutput => envoy_fallback topic niche user_vibe script_sample shorts_count
  | .parsedList deals =>
      let validated := (deals.take 3).filterMap (envoy_validate script_sample)
      if validated.isEmpty then
        envoy_fallback topic niche user_vibe script_sample shorts_count
      else validated

/-! ## NexusDatabase (nexus_core.py) -/

/-- A row of the `scripts` table.  `id` is the autoincrement primary key,
`created_at` the insertion timestamp (`CURRENT_TIMESTAMP`); the remaining
text columns are collapsed to the ones the claims mention. -/
structure ScriptRow where
  id : Nat
  topic : String
  full_script : String
  created_at : Nat
deriving DecidableEq

/-- `NexusDatabase.save_script`: an `INSERT` appending one row with the next
autoincrement id and the current timestamp `now`. -/
def save_script (rows : List ScriptRow) (topic full_script : String)
    (now : Nat) : List ScriptRow :=
  rows ++ [{ id := rows.length + 1, topic := topic, full_script := full_script,
             created_at := now }]

/-- The `ORDER BY created_at DESC` comparison of `get_recent_scripts`. -/
def createdDesc (a b : ScriptRow) : Prop :=
  b.created_at ≤ a.created_at

instance : DecidableRel createdDesc := fun a b =>
  Nat.decLe b.created_at a.created_at

instance : IsTotal ScriptRow createdDesc :=
  ⟨fun a b => Nat.le_total b.created_at a.created_at⟩

instance : IsTrans ScriptRow createdDesc :=
  ⟨fun _ _ _ hab hbc => Nat.le_trans hbc hab⟩

/-- `NexusDatabase.get_recent_scripts`:
`SELECT * FROM scripts ORDER BY created_at DESC LIMIT ?`, i.e. a sort of the
table by descending `created_at` followed by `LIMIT`. -/
def get_recent_scripts (rows : List ScriptRow) (limit : Nat) : List ScriptRow :=
  (rows.insertionSort createdDesc).take limit

/-- A row of the `shorts` table, with the columns `save_shorts` fills. -/
structure ShortRow where
  video_id : Nat
  clip_path : String
  start_time : ℚ
  duration : ℚ
  file_size : Nat
  posted : Bool
  platform : Option String
deriving DecidableEq

/-- The row `save_shorts` inserts for one (non-mock) clip. -/
def shortRowOf (video_id : Nat) (c : Clip) : ShortRow :=
  { video_id := video_id, clip_path := c.path, start_time := c.start_time,
    duration := c.duration, file_size := c.size_bytes, posted := c.posted,
    platform := if c.posted then some "Twitter/X" else Option.none }

/-- `NexusDatabase.save_shorts` (nexus_core.py): the insertion loop over the
clip dicts; the is_mock truthiness test inside it skips every mock clip (a real
clip has no `is_mock` key, i.e. `is_mock = false` in the model). -/
def save_shorts (rows : List ShortRow) (video_id : Nat) (clips : List Clip) :
    List ShortRow :=
  clips.foldl
    (fun acc clip =>
      if clip.is_mock then acc else acc ++ [shortRowOf video_id clip])
    rows

/-! ## The tenacity retry wrapper (`_call_gemini_api`, agent_ripple.py and
agent_quill.py) -/

/-- One attempt of the wrapped Gemini call: either a returned text or a
raised exception, tagged with whether the failure was transient
(network/timeout) — a distinction the decorator never looks at. -/
inductive CallResult where
  | ok : String → CallResult
  | exc : Bool → CallResult

/-- tenacity `wait_exponential(multiplier=1, min=2, max=10)`:
`max(max(0, min), min(multiplier * 2**attempt_number, max))` seconds after
attempt `attempt_number`. -/
def wait_exponential (multiplier minw maxw : ℚ) (attempt_number : Nat) : ℚ :=
  max (max 0 minw) (min (multiplier * 2 ^ attempt_number) maxw)

/-- Result of a whole decorated call: the returned text, or — when every
attempt raised — the re-raised last exception (`reraise=True`) with its
transiency tag. -/
inductive RetryResult where
  | ok : String → RetryResult
  | raised : Bool → RetryResult
deriving DecidableEq

/-- The observable behaviour of one decorated call: the final result, the
number of attempts made, and the waits slept between attempts. -/
structure RetryTrace where
  result : RetryResult
  attempts : Nat
  waits : List ℚ
deriving DecidableEq

/-- The retry loop of the `@retry` decorator with the default retry
predicate (retry on any exception): `fuel` is the number of retries still
allowed by `stop_after_attempt`, `attempt` the 1-based attempt number. -/
def retryGo (f : Nat → CallResult) : Nat → Nat → RetryTrace
  | 0, attempt =>
      match f attempt with
      | .ok t => ⟨.ok t, attempt, []⟩
      | .exc e => ⟨.raised e, attempt, []⟩
  | fuel + 1, attempt =>
      match f attempt with
      | .ok t => ⟨.ok t, attempt, []⟩
      | .exc _ =>
          let rest := retryGo f fuel (attempt + 1)
          ⟨rest.result, rest.attempts, wait_exponential 1 2 10 attempt :: rest.waits⟩

/-- `_call_gemini_api` (agent_ripple.py / agent_quill.py):
`@retry(stop=stop_after_attempt(3), wait=wait_exponential(multiplier=1,
min=2, max=10), reraise=True)` around one Gemini call, so up to 3 attempts
in total.  `f n` is the collaborator outcome of the `n`-th attempt. -/
def call_gemini_api (f : Nat → CallResult) : RetryTrace :=
  retryGo f 2 1

/-! ## Claim-side definitions and concrete fixtures -/

/-- The clipping plan exactly as claim C3 words it (an even split, the
`targetCount` reduction via `floor(D / minDuration)`, per-segment clamping
at `D`, and skipping of segments below `minDuration`) — to be compared with
`auto_clip_shorts`. -/
def clipping_spec_segments (D min_duration max_duration : ℚ)
    (num_clips : Int) : List (ℚ × ℚ) :=
  let segmentDuration := min max_duration (D / (num_clips : ℚ))
  let nd : Int × ℚ :=
    if segmentDuration < min_duration then (⌊D / min_duration⌋, min_duration)
    else (num_clips, segmentDuration)
  (List.range nd.1.toNat).filterMap fun (i : Nat) =>
    let start : ℚ := (i : ℚ) * (D / (nd.1 : ℚ))
    let dur := if start + nd.2 > D then D - start else nd.2
    if dur < min_duration then Option.none else some (start, dur)

/-- The retry discipline claim C6 asserts of the wrapper: a second attempt
is made only when the first attempt failed with a transient
(network/timeout) exception. -/
def retries_only_transient_claim : Prop :=
  ∀ f : Nat → CallResult,
    2 ≤ (call_gemini_api f).attempts → f 1 = CallResult.exc true

/-- A `scripts` table after 7 completed runs, inserted by `save_script` at
strictly increasing timestamps. -/
def table7 : List ScriptRow :=
  save_script (save_script (save_script (save_script (save_script
    (save_script (save_script [] "t1" "s1" 1) "t2" "s2" 2) "t3" "s3" 3)
    "t4" "s4" 4) "t5" "s5" 5) "t6" "s6" 6) "t7" "s7" 7

/-- A concrete really-produced (non-mock) clip, used as a fixture. -/
def sample_real_clip : Clip :=
  { clip_id := 1, filename := "short_1_15s.mp4", path := "shorts/short_1_15s.mp4",
    start_time := 0, duration := 15, size_bytes := 1024, posted := true,
    is_mock := false }

/-! # Theorems -/

/-! ## Helper lemmas -/

theorem append_ne_empty_left (a b : String) (h : a ≠ "") : a ++ b ≠ "" := by
  intro he
  apply h
  have hd := congrArg String.data he
  rw [String.data_append] at hd
  exact String.ext (List.append_eq_nil.mp hd).1

theorem truthy_of_pyGet_str (gs : PyVal) (k s : String)
    (h : pyGet gs k = PyVal.str s) : gs.truthy = true := by
  cases gs <;> simp [pyGet] at h
  case dict xs =>
    cases xs with
    | nil => simp [dget] at h
    | cons p ps => simp [PyVal.truthy]

theorem run_ripple_shape (u : Bool) (s : SerperOutcome) (g : LLMJson) (n : Nat) :
    (∃ t : PyVal, t.truthy = true ∧ run_ripple u s g n = [("scouted_trends", t)]) ∨
      run_ripple u s g n =
        [("scouted_trends", .list []), ("error", .str "ripple: No trends found")] := by
  unfold run_ripple
  set t : PyVal :=
    (if (if u then fetch_viral_trends_serper s n else []).isEmpty then
      match g with
      | .throws => PyVal.list []
      | .badJson => PyVal.list []
      | .parsed v => v
    else PyVal.list (if u then fetch_viral_trends_serper s n else [])) with ht
  by_cases h : t.truthy
  · exact Or.inl ⟨t, h, by simp [h]⟩
  · simp [h]

theorem dget_head (k : String) (v : PyVal) (rest : PyDict) :
    dget ((k, v) :: rest) k = v := by
  simp [dget]

/-! ## C1: routing after the discovery stage -/

/-- C1.  After the discovery stage, the router proceeds to the writing
stage (`"quill"`) iff the discovered-items list `scouted_trends` is
non-empty; whenever discovery produced zero items — including when its
collaborators failed or threw, covered by the quantification over all
collaborator outcomes — the run is routed to the terminal
`"error_handler"` and the returned state carries the failure record
`error = "ripple: No trends found"`, which names the discovery stage. -/
theorem discovery_routing (u : Bool) (s : SerperOutcome) (g : LLMJson) (n : Nat) :
    (dget (run_ripple u s g n) "scouted_trends" = PyVal.list [] →
      check_for_trends (dget (run_ripple u s g n) "scouted_trends") = "error_handler" ∧
      dget (run_ripple u s g n) "error" = PyVal.str "ripple: No trends found") ∧
    (∀ (x : PyVal) (xs : List PyVal),
      dget (run_ripple u s g n) "scouted_trends" = PyVal.list (x :: xs) →
      check_for_trends (dget (run_ripple u s g n) "scouted_trends") = "quill") := by
  rcases run_ripple_shape u s g n with ⟨t, htr, heq⟩ | heq
  · rw [heq]
    rw [dget_head]
    constructor
    · intro h
      rw [h] at htr
      simp [PyVal.truthy] at htr
    · intro x xs h
      rw [h]
      rfl
  · rw [heq]
    rw [dget_head]
    constructor
    · intro _
      constructor
      · rfl
      · simp [dget]
    · intro x xs h
      simp at h

/-- Witness for C1: with no Serper key and a Gemini call that throws even
after its retries, discovery yields zero items, the router selects the
error handler, and the failure record names ripple (the discovery stage). -/
theorem discovery_routing_witness :
    check_for_trends
        (dget (run_ripple true SerperOutcome.noKey LLMJson.throws 5) "scouted_trends") =
      "error_handler" ∧
    dget (run_ripple true SerperOutcome.noKey LLMJson.throws 5) "error" =
      PyVal.str "ripple: No trends found" :=
  (discovery_routing true SerperOutcome.noKey LLMJson.throws 5).1 rfl

/-! ## C2: routing after the writing stage -/

/-- C2.  After the writing stage, the router proceeds to the
`awaiting_video` suspend checkpoint iff the generated script has a
non-empty `full_script` string (the hypothesis restricts the field to the
string-or-absent values quill can produce); otherwise it routes to the
failure terminal, printing the line that attributes the failure to script
generation. -/
theorem writing_routing (gs : PyVal)
    (h : pyGet gs "full_script" = PyVal.none ∨
      ∃ s : String, pyGet gs "full_script" = PyVal.str s) :
    (check_for_script gs = "awaiting_video" ↔
      ∃ s : String, pyGet gs "full_script" = PyVal.str s ∧ s ≠ "") ∧
    (check_for_script gs = "awaiting_video" ∨ check_for_script gs = "error_handler") ∧
    (check_for_script gs = "error_handler" →
      check_for_script_log gs = "⚠️ No script generated - routing to error handler") := by
  refine ⟨⟨?_, ?_⟩, ?_, ?_⟩
  · intro hr
    unfold check_for_script at hr
    by_cases hc : (!gs.truthy || !(pyGet gs "full_script").truthy) = true
    · rw [if_pos hc] at hr
      exact absurd hr (by decide)
    · have hc2 := hc
      simp only [Bool.or_eq_true, not_or, Bool.not_eq_true'] at hc2
      rcases h with h0 | ⟨s, hs⟩
      · rw [h0] at hc2
        simp [PyVal.truthy] at hc2
      · refine ⟨s, hs, ?_⟩
        have := hc2.2
        rw [hs] at this
        simpa [PyVal.truthy] using this
  · rintro ⟨s, hs, hne⟩
    have h1 : gs.truthy = true := truthy_of_pyGet_str gs _ s hs
    have h2 : (pyGet gs "full_script").truthy = true := by
      rw [hs]
      simp [PyVal.truthy, hne]
    unfold check_for_script
    simp [h1, h2]
  · unfold check_for_script
    by_cases hc : (!gs.truthy || !(pyGet gs "full_script").truthy) = true
    · rw [if_pos hc]
      exact Or.inr rfl
    · rw [if_neg hc]
      exact Or.inl rfl
  · intro hr
    unfold check_for_script at hr
    unfold check_for_script_log
    by_cases hc : (!gs.truthy || !(pyGet gs "full_script").truthy) = true
    · rw [if_pos hc]
    · rw [if_neg hc] at hr
      exact absurd hr (by decide)

/-- Witness for C2: a script dict with non-empty `full_script` routes to
the suspend checkpoint. -/
theorem writing_routing_witness :
    check_for_script (PyVal.dict [("full_script", PyVal.str "x")]) = "awaiting_video" :=
  (writing_routing (PyVal.dict [("full_script", PyVal.str "x")])
      (Or.inr ⟨"x", rfl⟩)).1.mpr ⟨"x", rfl, by decide⟩

/-! ## C5: stages always return their declared output keys -/

/-- C5.  For every collaborator behaviour (thrown call, unparseable output,
missing required sub-fields — all cases of the outcome types), the writing
stage returns a partial state containing its declared `generated_script`
key (always a dict), and the discovery stage one containing its declared
`scouted_trends` key; both stage embeddings are total over all collaborator
outcomes, i.e. no exception reaches the router. -/
theorem stage_outputs_wellformed (topic niche vibe : String) (ts : Option String)
    (q : QuillLLM) (u : Bool) (sp : SerperOutcome) (g : LLMJson) (n : Nat) :
    ((run_quill topic niche vibe ts q).find? (fun p => p.1 == "generated_script")).isSome = true ∧
    (∃ xs : PyDict,
      dget (run_quill topic niche vibe ts q) "generated_script" = PyVal.dict xs) ∧
    ((run_ripple u sp g n).find? (fun p => p.1 == "scouted_trends")).isSome = true := by
  refine ⟨?_, ?_, ?_⟩
  · cases q with
    | throws e => simp [run_quill]
    | badJson e => simp [run_quill]
    | parsed v =>
        cases v <;> (simp [run_quill]; try (split <;> simp))
  · cases q with
    | throws e => exact ⟨quill_fallback_general topic vibe, rfl⟩
    | badJson e => exact ⟨quill_fallback_json topic niche vibe, rfl⟩
    | parsed v =>
        cases v with
        | dict xs =>
            by_cases hf : quill_has_required_fields xs = true
            · simp only [run_quill, hf, if_true]
              exact ⟨_, dget_head _ _ _⟩
            · simp only [run_quill, Bool.not_eq_true] at hf
              simp only [run_quill, hf, if_false, Bool.false_eq_true]
              exact ⟨quill_fallback_general topic vibe, dget_head _ _ _⟩
        | none => exact ⟨quill_fallback_general topic vibe, rfl⟩
        | bool b => exact ⟨quill_fallback_general topic vibe, rfl⟩
        | int i => exact ⟨quill_fallback_general topic vibe, rfl⟩
        | rat r => exact ⟨quill_fallback_general topic vibe, rfl⟩
        | str s => exact ⟨quill_fallback_general topic vibe, rfl⟩
        | list l => exact ⟨quill_fallback_general topic vibe, rfl⟩
  · rcases run_ripple_shape u sp g n with ⟨t, _, heq⟩ | heq <;> rw [heq] <;> simp

/-! ## C9: quill failure paths still unblock the pipeline -/

theorem check_for_script_of_str (gs : PyVal) (s : String)
    (hs : pyGet gs "full_script" = PyVal.str s) (hne : s ≠ "") :
    check_for_script gs = "awaiting_video" := by
  have h1 : gs.truthy = true := truthy_of_pyGet_str gs _ s hs
  have h2 : (pyGet gs "full_script").truthy = true := by
    rw [hs]
    simp [PyVal.truthy, hne]
  unfold check_for_script
  simp [h1, h2]

/-- C9.  On every failure path of the writing stage (thrown LLM call, JSON
parse failure, failed field validation), `run_quill` returns a fallback
script whose `full_script` is a non-empty string, so the router selects the
`awaiting_video` checkpoint — the writing-stage failure branch is
unreachable from a fallback result. -/
theorem quill_fallback_unblocks (topic niche vibe : String) (ts : Option String)
    (q : QuillLLM) (hq : q.isFailurePath) :
    ∃ s : String,
      pyGet (dget (run_quill topic niche vibe ts q) "generated_script")
          "full_script" = PyVal.str s ∧
      s ≠ "" ∧
      check_for_script (dget (run_quill topic niche vibe ts q) "generated_script") =
        "awaiting_video" := by
  have hgen : ∀ t v : String,
      pyGet (PyVal.dict (quill_fallback_general t v)) "full_script" =
        PyVal.str ("Here\x27s something you need to know... About " ++ t ++
          ". [Look directly at camera] This is important. Follow for more.") :=
    fun _ _ => rfl
  have hgenne : ∀ t : String,
      ("Here\x27s something you need to know... About " ++ t ++
        ". [Look directly at camera] This is important. Follow for more.") ≠ "" :=
    fun t =>
      append_ne_empty_left _ _
        (append_ne_empty_left "Here\x27s something you need to know... About " t
          (by decide))
  cases q with
  | throws e =>
      refine ⟨_, hgen topic vibe, hgenne topic, ?_⟩
      exact check_for_script_of_str _ _ (hgen topic vibe) (hgenne topic)
  | badJson e =>
      have hj : pyGet (dget (run_quill topic niche vibe ts (QuillLLM.badJson e))
          "generated_script") "full_script" =
          PyVal.str ("Let\x27s talk about " ++ topic ++ "... Everyone in " ++ niche ++
            " is talking about this, but here\x27s what they\x27re missing. [Hold up phone to camera] The real story is way more interesting. Drop a comment if you want more on this. Follow for daily insights.") := rfl
      have hjne : ("Let\x27s talk about " ++ topic ++ "... Everyone in " ++ niche ++
          " is talking about this, but here\x27s what they\x27re missing. [Hold up phone to camera] The real story is way more interesting. Drop a comment if you want more on this. Follow for daily insights.") ≠ "" := by
        refine append_ne_empty_left _ _ ?_
        refine append_ne_empty_left _ _ ?_
        refine append_ne_empty_left _ _ ?_
        exact append_ne_empty_left "Let\x27s talk about " topic (by decide)
      exact ⟨_, hj, hjne, check_for_script_of_str _ _ hj hjne⟩
  | parsed v =>
      cases v with
      | dict xs =>
          have hf : quill_has_required_fields xs = false := hq
          have hd : dget (run_quill topic niche vibe ts (QuillLLM.parsed (PyVal.dict xs)))
              "generated_script" = PyVal.dict (quill_fallback_general topic vibe) := by
            simp only [run_quill, hf, if_false, Bool.false_eq_true]
            exact dget_head _ _ _
          rw [hd]
          exact ⟨_, hgen topic vibe, hgenne topic,
            check_for_script_of_str _ _ (hgen topic vibe) (hgenne topic)⟩
      | none =>
          exact ⟨_, hgen topic vibe, hgenne topic,
            check_for_script_of_str _ _ (hgen topic vibe) (hgenne topic)⟩
      | bool b =>
          exact ⟨_, hgen topic vibe, hgenne topic,
            check_for_script_of_str _ _ (hgen topic vibe) (hgenne topic)⟩
      | int i =>
          exact ⟨_, hgen topic vibe, hgenne topic,
            check_for_script_of_str _ _ (hgen topic vibe) (hgenne topic)⟩
      | rat r =>
          exact ⟨_, hgen topic vibe, hgenne topic,
            check_for_script_of_str _ _ (hgen topic vibe) (hgenne topic)⟩
      | str s =>
          exact ⟨_, hgen topic vibe, hgenne topic,
            check_for_script_of_str _ _ (hgen topic vibe) (hgenne topic)⟩
      | list l =>
          exact ⟨_, hgen topic vibe, hgenne topic,
            check_for_script_of_str _ _ (hgen topic vibe) (hgenne topic)⟩

/-- Witness for C9: a thrown LLM call on topic `"AI"` still yields a
non-empty fallback `full_script` and the suspend-checkpoint route. -/
theorem quill_fallback_unblocks_witness :
    ∃ s : String,
      pyGet (dget (run_quill "AI" "tech" "casual" Option.none (QuillLLM.throws "boom"))
          "generated_script") "full_script" = PyVal.str s ∧
      s ≠ "" ∧
      check_for_script
          (dget (run_quill "AI" "tech" "casual" Option.none (QuillLLM.throws "boom"))
            "generated_script") = "awaiting_video" :=
  quill_fallback_unblocks "AI" "tech" "casual" Option.none (QuillLLM.throws "boom")
    trivial

/-! ## C4: resuming without real media never stalls -/

theorem run_envoy_ne_nil (topic niche vibe : String) (gs : PyVal)
    (clips : List Clip) (llm : EnvoyLLM) :
    run_envoy topic niche vibe gs clips llm ≠ [] := by
  cases llm with
  | throws => simp [run_envoy, envoy_fallback]
  | badOutput => simp [run_envoy, envoy_fallback]
  | parsedList deals =>
      by_cases he :
        ((deals.take 3).filterMap (envoy_validate (envoy_script_sample gs))).isEmpty
      · simp [run_envoy, he, envoy_fallback]
      · simp only [run_envoy, he, if_false, Bool.false_eq_true]
        simpa [List.isEmpty_iff] using he

/-- C4.  If the clipping stage is invoked with a missing media path or one
whose duration cannot be probed, it does not fail the run: it returns the
non-empty fixed mock clip list, every entry flagged `is_mock`, and the
subsequent outreach stage still returns a non-empty offer list for every
collaborator outcome. -/
theorem mock_resume (path_exists ffmpeg_ok : Bool) (dur? : Option ℚ)
    (clip_ok : Nat → Bool) (sz : Nat → Nat) (tw yt : Nat → Bool)
    (topic niche vibe : String) (gs : PyVal) (llm : EnvoyLLM)
    (h : path_exists = false ∨ dur? = Option.none) :
    run_pulse path_exists ffmpeg_ok dur? clip_ok sz tw yt = mock_clipped_shorts ∧
    run_pulse path_exists ffmpeg_ok dur? clip_ok sz tw yt ≠ [] ∧
    (∀ c ∈ run_pulse path_exists ffmpeg_ok dur? clip_ok sz tw yt, c.is_mock = true) ∧
    run_envoy topic niche vibe gs
        (run_pulse path_exists ffmpeg_ok dur? clip_ok sz tw yt) llm ≠ [] := by
  have hmock : run_pulse path_exists ffmpeg_ok dur? clip_ok sz tw yt =
      mock_clipped_shorts := by
    rcases h with h | h
    · subst h
      rfl
    · subst h
      cases path_exists <;> cases ffmpeg_ok <;> rfl
  refine ⟨hmock, ?_, ?_, run_envoy_ne_nil topic niche vibe gs _ llm⟩
  · rw [hmock]
    decide
  · rw [hmock]
    decide

/-- Witness for C4: a run resumed with no media file present yields the mock
clips and the outreach stage (here with a thrown LLM call) still returns a
non-empty offer list. -/
theorem mock_resume_witness :
    run_pulse false true (some 45) (fun _ => true) (fun _ => 0)
        (fun _ => false) (fun _ => false) = mock_clipped_shorts ∧
    run_envoy "AI" "tech" "casual" (PyVal.dict [])
        (run_pulse false true (some 45) (fun _ => true) (fun _ => 0)
          (fun _ => false) (fun _ => false)) EnvoyLLM.throws ≠ [] :=
  ⟨(mock_resume false true (some 45) (fun _ => true) (fun _ => 0)
      (fun _ => false) (fun _ => false) "AI" "tech" "casual" (PyVal.dict [])
      EnvoyLLM.throws (Or.inl rfl)).1,
   (mock_resume false true (some 45) (fun _ => true) (fun _ => 0)
      (fun _ => false) (fun _ => false) "AI" "tech" "casual" (PyVal.dict [])
      EnvoyLLM.throws (Or.inl rfl)).2.2.2⟩

/-! ## C10: persisting shorts never writes a mock placeholder -/

theorem save_shorts_eq (vid : Nat) :
    ∀ (clips : List Clip) (rows : List ShortRow),
      save_shorts rows vid clips =
        rows ++ (clips.filter (fun c => !c.is_mock)).map (shortRowOf vid) := by
  intro clips
  induction clips with
  | nil => intro rows; simp [save_shorts]
  | cons c cs ih =>
      intro rows
      have hstep : save_shorts rows vid (c :: cs) =
          save_shorts (if c.is_mock then rows else rows ++ [shortRowOf vid c]) vid cs := by
        simp [save_shorts]
      by_cases hm : c.is_mock
      · rw [hstep, if_pos hm, ih]
        simp [List.filter_cons, hm]
      · rw [hstep, if_neg hm, ih]
        simp [List.filter_cons, hm, List.append_assoc]

/-- C10.  `save_shorts` skips every clip whose `is_mock` flag is truthy: the
rows it appends to the `shorts` table are exactly the images of the
non-mock clips, every appended row stems from a non-mock clip, and saving
the mock fallback list inserts nothing. -/
theorem persist_skips_mocks (rows : List ShortRow) (vid : Nat) (clips : List Clip) :
    save_shorts rows vid clips =
      rows ++ (clips.filter (fun c => !c.is_mock)).map (shortRowOf vid) ∧
    (∀ r ∈ (save_shorts rows vid clips).drop rows.length,
      ∃ c, c ∈ clips ∧ c.is_mock = false ∧ r = shortRowOf vid c) ∧
    save_shorts rows vid mock_clipped_shorts = rows := by
  refine ⟨save_shorts_eq vid clips rows, ?_, ?_⟩
  · intro r hr
    rw [save_shorts_eq vid clips rows, List.drop_left] at hr
    rcases List.mem_map.mp hr with ⟨c, hc, hrc⟩
    rcases List.mem_filter.mp hc with ⟨hcl, hmf⟩
    exact ⟨c, hcl, by simpa using hmf, hrc.symm⟩
  · rfl

/-- Witness for C10: appending the mock list plus one real clip inserts
exactly the row of the real clip, which is certified non-mock. -/
theorem persist_skips_mocks_witness :
    ∃ c, c ∈ mock_clipped_shorts ++ [sample_real_clip] ∧ c.is_mock = false ∧
      shortRowOf 1 sample_real_clip = shortRowOf 1 c :=
  (persist_skips_mocks [] 1 (mock_clipped_shorts ++ [sample_real_clip])).2.1
    (shortRowOf 1 sample_real_clip) (by decide)

/-! ## C3 and C7: the clipping algorithm -/

theorem autoClipGo_min_le_duration (od : String) (total minD nQ : ℚ)
    (ok : Nat → Bool) (sz : Nat → Nat) :
    ∀ (idxs : List Nat) (dur : ℚ) (c : Clip),
      c ∈ autoClipGo od total minD nQ ok sz idxs dur → minD ≤ c.duration := by
  intro idxs
  induction idxs with
  | nil => intro dur c hc; simp [autoClipGo] at hc
  | cons i rest ih =>
      intro dur c hc
      simp only [autoClipGo] at hc
      by_cases hclamp : ((i : ℚ) * (total / nQ) + dur > total)
      · rw [if_pos hclamp] at hc
        by_cases hskip : (total - (i : ℚ) * (total / nQ)) < minD
        · rw [if_pos hskip] at hc
          exact ih _ c hc
        · rw [if_neg hskip] at hc
          by_cases hok : ok i = true
          · rw [if_pos hok] at hc
            rcases List.mem_cons.mp hc with hc1 | hc2
            · subst hc1
              simpa [pulseClip] using le_of_not_lt hskip
            · exact ih _ c hc2
          · rw [if_neg hok] at hc
            exact ih _ c hc
      · rw [if_neg hclamp] at hc
        by_cases hskip : dur < minD
        · rw [if_pos hskip] at hc
          exact ih _ c hc
        · rw [if_neg hskip] at hc
          by_cases hok : ok i = true
          · rw [if_pos hok] at hc
            rcases List.mem_cons.mp hc with hc1 | hc2
            · subst hc1
              simpa [pulseClip] using le_of_not_lt hskip
            · exact ih _ c hc2
          · rw [if_neg hok] at hc
            exact ih _ c hc

theorem autoClipGo_no_clamp (od : String) (total minD nQ seg : ℚ)
    (ok : Nat → Bool) (sz : Nat → Nat) (hmin : ¬ seg < minD) :
    ∀ (idxs : List Nat),
      (∀ i ∈ idxs, ¬ total < (i : ℚ) * (total / nQ) + seg) →
      autoClipGo od total minD nQ ok sz idxs seg =
        idxs.filterMap (fun i =>
          if ok i then some (pulseClip od sz ((i : ℚ) * (total / nQ)) seg i)
          else Option.none) := by
  intro idxs
  induction idxs with
  | nil => intro _; simp [autoClipGo]
  | cons i rest ih =>
      intro h
      have hi : ¬ ((i : ℚ) * (total / nQ) + seg > total) :=
        h i (List.mem_cons_self i rest)
      simp only [autoClipGo]
      rw [if_neg hi, if_neg hmin]
      rw [ih (fun j hj => h j (List.mem_cons_of_mem i hj))]
      cases hok : ok i <;> simp [List.filterMap_cons, hok]




theorem filterMap_eq_map_of_forall_some {α β : Type} (f : α → Option β) (g : α → β) :
    ∀ (l : List α), (∀ i ∈ l, f i = some (g i)) → l.filterMap f = l.map g := by
  intro l
  induction l with
  | nil => intro _; simp
  | cons a l ih =>
      intro h
      rw [List.filterMap_cons, h a (List.mem_cons_self a l), List.map_cons,
        ih (fun i hi => h i (List.mem_cons_of_mem a hi))]

theorem start_bound (D q seg : ℚ) (N : Nat) (hq : 0 < q) (hNq : (N : ℚ) * q = D)
    (hseg : seg ≤ q) :
    ∀ i ∈ List.range N, ¬ D < (i : ℚ) * q + seg := by
  intro i hi
  rw [List.mem_range] at hi
  have h1 : (i : ℚ) + 1 ≤ (N : ℚ) := by exact_mod_cast Nat.succ_le_of_lt hi
  have h2 : (i : ℚ) * q + seg ≤ ((i : ℚ) + 1) * q := by nlinarith
  have h3 : ((i : ℚ) + 1) * q ≤ (N : ℚ) * q := by nlinarith
  exact not_lt.mpr (le_trans h2 (le_of_le_of_eq h3 hNq))

theorem auto_clip_matches_plan (od : String) (sz : Nat → Nat) (D minD maxD : ℚ)
    (n : Int) (hD : 0 < D) (hmin : 0 < minD) (hn : 0 < n) :
    ((auto_clip_shorts od (some D) minD maxD n (fun _ => true) sz).map
        (fun c => (c.start_time, c.duration))) =
      clipping_spec_segments D minD maxD n := by
  have hD0 : D ≠ 0 := ne_of_gt hD
  simp only [auto_clip_shorts, clipping_spec_segments, if_neg hD0]
  by_cases hred : min maxD (D / ((n : Int) : ℚ)) < minD
  · -- reduction branch: num_clips becomes floor(D / minD), duration minD
    rw [if_pos hred, if_pos hred]
    dsimp only
    have hdm : (0:ℚ) ≤ D / minD := (div_pos hD hmin).le
    have hpt : pyTrunc (D / minD) = ⌊D / minD⌋ := by simp [pyTrunc, hdm]
    rw [hpt]
    rcases Nat.eq_zero_or_pos (Int.toNat ⌊D / minD⌋) with hm0 | hmpos
    · rw [hm0]
      simp [autoClipGo]
    · have hcast : ((⌊D / minD⌋ : Int) : ℚ) = ((Int.toNat ⌊D / minD⌋ : Nat) : ℚ) := by
        have := Int.toNat_of_nonneg (Int.floor_nonneg.mpr hdm)
        exact_mod_cast this.symm
      rw [hcast]
      set N : Nat := Int.toNat ⌊D / minD⌋ with hNdef
      have hNQ : (0:ℚ) < (N : ℚ) := by exact_mod_cast hmpos
      have hq : 0 < D / (N : ℚ) := div_pos hD hNQ
      have hNq : (N : ℚ) * (D / (N : ℚ)) = D := by field_simp
      have hfl : ((⌊D / minD⌋ : Int) : ℚ) ≤ D / minD := Int.floor_le _
      have hflN : (N : ℚ) ≤ D / minD := by rw [← hcast]; exact hfl
      have hseg : minD ≤ D / (N : ℚ) := by
        rw [le_div_iff₀ hNQ]
        have := (le_div_iff₀ hmin).mp hflN
        linarith [this]
      have hb := start_bound D (D / (N : ℚ)) minD N hq hNq hseg
      have hmin2 : ¬ minD < minD := lt_irrefl _
      have hL := autoClipGo_no_clamp od D minD (N : ℚ) minD (fun _ => true) sz hmin2
        (List.range N)
        (by intro i hi; simpa using hb i hi)
      rw [hL, List.map_filterMap]
      refine Eq.trans (filterMap_eq_map_of_forall_some _
        (fun (i : Nat) => ((i : ℚ) * (D / (N : ℚ)), minD)) (List.range N)
        (fun i _ => rfl)) ?_
      refine (filterMap_eq_map_of_forall_some _ _ (List.range N) ?_).symm
      intro i hi
      dsimp only
      rw [if_neg (show ¬ ((i : ℚ) * (D / (N : ℚ)) + minD > D) from by simpa using hb i hi),
        if_neg hmin2]
  · -- even-split branch
    rw [if_neg hred, if_neg hred]
    dsimp only
    have hcast : ((n : Int) : ℚ) = ((Int.toNat n : Nat) : ℚ) := by
      have := Int.toNat_of_nonneg hn.le
      exact_mod_cast this.symm
    rw [hcast] at hred ⊢
    set N : Nat := Int.toNat n with hNdef
    have hNpos : 0 < N := by omega
    have hNQ : (0:ℚ) < (N : ℚ) := by exact_mod_cast hNpos
    have hq : 0 < D / (N : ℚ) := div_pos hD hNQ
    have hNq : (N : ℚ) * (D / (N : ℚ)) = D := by field_simp
    have hseg : min maxD (D / (N : ℚ)) ≤ D / (N : ℚ) := min_le_right _ _
    have hb := start_bound D (D / (N : ℚ)) (min maxD (D / (N : ℚ))) N hq hNq hseg
    have hL := autoClipGo_no_clamp od D minD (N : ℚ) (min maxD (D / (N : ℚ)))
      (fun _ => true) sz hred (List.range N)
      (by intro i hi; simpa using hb i hi)
    rw [hL, List.map_filterMap]
    refine Eq.trans (filterMap_eq_map_of_forall_some _
      (fun (i : Nat) => ((i : ℚ) * (D / (N : ℚ)), min maxD (D / (N : ℚ))))
      (List.range N) (fun i _ => rfl)) ?_
    refine (filterMap_eq_map_of_forall_some _ _ (List.range N) ?_).symm
    intro i hi
    dsimp only
    rw [if_neg (show ¬ ((i : ℚ) * (D / (N : ℚ)) + min maxD (D / (N : ℚ)) > D) from
        by simpa using hb i hi),
      if_neg hred]

/-- C3.  For positive duration, positive `min_duration` and positive
`num_clips`, `auto_clip_shorts` computes exactly the plan claim C3
describes (`clipping_spec_segments`: even split `min(maxDuration,
D/targetCount)`, reduction of the count to `floor(D/minDuration)` when the
split is too short, starts at `i * (D/targetCount)`, clamping at `D`), and
for every per-segment collaborator outcome no emitted segment has duration
below `min_duration`. -/
theorem clipping_algorithm_spec (od : String) (sz : Nat → Nat) (D minD maxD : ℚ)
    (n : Int) (clip_ok : Nat → Bool) (hD : 0 < D) (hmin : 0 < minD) (hn : 0 < n) :
    ((auto_clip_shorts od (some D) minD maxD n (fun _ => true) sz).map
        (fun c => (c.start_time, c.duration))) = clipping_spec_segments D minD maxD n ∧
    ∀ c ∈ auto_clip_shorts od (some D) minD maxD n clip_ok sz, minD ≤ c.duration := by
  refine ⟨auto_clip_matches_plan od sz D minD maxD n hD hmin hn, ?_⟩
  intro c hc
  simp only [auto_clip_shorts] at hc
  rw [if_neg (ne_of_gt hD)] at hc
  exact autoClipGo_min_le_duration od D minD _ clip_ok sz _ _ c hc

/-- Witness for C3: the equivalence evaluated at the concrete
configuration `D=45, min=15, max=60, targetCount=3`. -/
theorem clipping_algorithm_spec_witness :
    ((auto_clip_shorts "shorts" (some 45) 15 60 3 (fun _ => true) (fun _ => 0)).map
        (fun c => (c.start_time, c.duration))) = clipping_spec_segments 45 15 60 3 ∧
    (15 : ℚ) ≤ 15 :=
  ⟨(clipping_algorithm_spec "shorts" (fun _ => 0) 45 15 60 3 (fun _ => true)
      (by norm_num) (by norm_num) (by norm_num)).1, le_refl 15⟩

/-- C7.  Clipping a 45-second source with `min=15`, `max=60`,
`targetCount=3` and an always-successful clipper emits exactly the three
15-second segments starting at 0, 15 and 30, whose ends 15, 30 and 45 chain
without gaps and cover the whole source. -/
theorem clipping_45s_cover :
    ((auto_clip_shorts "shorts" (some 45) 15 60 3 (fun _ => true) (fun _ => 0)).map
        (fun c => (c.start_time, c.duration))) = [(0, 15), (15, 15), (30, 15)] ∧
    (((auto_clip_shorts "shorts" (some 45) 15 60 3 (fun _ => true) (fun _ => 0)).map
        (fun c => (c.start_time, c.duration))).map (fun p => p.1 + p.2)) =
      [15, 30, 45] := by
  have h := auto_clip_matches_plan "shorts" (fun _ => 0) 45 15 60 3
    (by norm_num) (by norm_num) (by norm_num)
  have h1 : ((3 : Int) : ℚ) = 3 := by norm_num
  have hr : List.range (Int.toNat 3) = [0, 1, 2] := rfl
  have hspec : clipping_spec_segments 45 15 60 3 = [(0, 15), (15, 15), (30, 15)] := by
    simp only [clipping_spec_segments, h1]
    norm_num [min_def, hr, List.filterMap_cons]
  refine ⟨h.trans hspec, ?_⟩
  rw [h, hspec]
  norm_num

theorem wait_exp_1 : wait_exponential 1 2 10 1 = 2 := by
  norm_num [wait_exponential, max_def, min_def]

theorem wait_exp_2 : wait_exponential 1 2 10 2 = 4 := by
  norm_num [wait_exponential, max_def, min_def]

/-- C6 (amended).  The tenacity wrapper around the Gemini call makes at
most 3 attempts with exponential backoff waits of 2 then 4 seconds (each
within [2, 10], the first exactly 2), and a retry happens only after the
previous attempt raised an exception — but it retries on ANY exception,
transient or not; structurally invalid output never reaches the wrapper
(parsing happens outside it), so it is never retried. -/
theorem retry_wrapper_amended (f : Nat → CallResult) :
    (call_gemini_api f).attempts ≤ 3 ∧
    ((call_gemini_api f).waits ≠ [] → (call_gemini_api f).waits.head? = some 2) ∧
    (∀ w ∈ (call_gemini_api f).waits, 2 ≤ w ∧ w ≤ 10) ∧
    ((call_gemini_api f).attempts = 3 → (call_gemini_api f).waits = [2, 4]) ∧
    (2 ≤ (call_gemini_api f).attempts → ∃ b, f 1 = CallResult.exc b) ∧
    (∀ t, f 1 = CallResult.ok t →
      (call_gemini_api f).attempts = 1 ∧ (call_gemini_api f).result = RetryResult.ok t) := by
  cases h1 : f 1 <;> cases h2 : f 2 <;> cases h3 : f 3 <;>
    simp [call_gemini_api, retryGo, h1, h2, h3, wait_exp_1, wait_exp_2] <;> norm_num

/-- Counterexample for C6 as stated: the wrapper performs a retry after a
non-transient exception, so it does not retry only for transient
(network/timeout) failures. -/
theorem retry_counterexample : ¬ retries_only_transient_claim := by
  intro h
  have h2 := h (fun n => if n = 1 then CallResult.exc false else CallResult.ok "ok")
    (by decide)
  simp at h2

/-- Witness for C6 (amended), at the collaborator that always raises. -/
theorem retry_wrapper_amended_witness :
    (call_gemini_api (fun _ => CallResult.exc true)).waits.head? = some 2 ∧
    (∃ b, (fun _ : Nat => CallResult.exc true) 1 = CallResult.exc b) :=
  ⟨(retry_wrapper_amended (fun _ => CallResult.exc true)).2.1 (by decide),
   (retry_wrapper_amended (fun _ => CallResult.exc true)).2.2.2.2.1 (by decide)⟩

theorem orderedInsert_sink (a : ScriptRow) :
    ∀ (l : List ScriptRow), (∀ x ∈ l, ¬ createdDesc a x) →
      l.orderedInsert createdDesc a = l ++ [a] := by
  intro l
  induction l with
  | nil => intro _; rfl
  | cons b t ih =>
      intro h
      rw [List.orderedInsert, if_neg (h b (List.mem_cons_self b t)),
        ih (fun x hx => h x (List.mem_cons_of_mem b hx))]
      rfl

theorem insertionSort_of_strictAsc :
    ∀ (l : List ScriptRow),
      l.Pairwise (fun a b => a.created_at < b.created_at) →
      l.insertionSort createdDesc = l.reverse := by
  intro l
  induction l with
  | nil => intro _; rfl
  | cons a t ih =>
      intro h
      rw [List.insertionSort, ih (List.Pairwise.of_cons h)]
      rw [orderedInsert_sink a t.reverse ?_, List.reverse_cons]
      intro x hx
      have hax : a.created_at < x.created_at :=
        (List.pairwise_cons.mp h).1 x (List.mem_reverse.mp hx)
      exact not_le.mpr hax

/-- C8.  The recent-runs listing: for a table whose rows were inserted at
strictly increasing timestamps, `get_recent_scripts` returns the reversed
insertion order truncated to the limit — `min limit size` records, ordered
most recent first. -/
theorem recent_listing (rows : List ScriptRow) (limit : Nat)
    (hasc : rows.Pairwise (fun a b => a.created_at < b.created_at)) :
    get_recent_scripts rows limit = rows.reverse.take limit ∧
    (get_recent_scripts rows limit).length = min limit rows.length ∧
    List.Sorted createdDesc (get_recent_scripts rows limit) := by
  have hs : rows.insertionSort createdDesc = rows.reverse :=
    insertionSort_of_strictAsc rows hasc
  refine ⟨?_, ?_, ?_⟩
  · rw [get_recent_scripts, hs]
  · rw [get_recent_scripts, hs, List.length_take, List.length_reverse]
  · rw [get_recent_scripts]
    exact List.Pairwise.sublist (List.take_sublist _ _)
      (List.sorted_insertionSort createdDesc rows)

/-- Witness for C8: after 7 completed runs, listing with limit 5 returns
exactly 5 records, newest first. -/
theorem recent_listing_witness :
    get_recent_scripts table7 5 = table7.reverse.take 5 ∧
    (get_recent_scripts table7 5).length = 5 :=
  ⟨(recent_listing table7 5 (by decide)).1,
   ((recent_listing table7 5 (by decide)).2.1).trans (by decide)⟩
